import Mathlib

/-!
Shallow embedding of the analysis-orchestration core of the
Legal-Document-Analyzer repository (Node/Express + Mongoose backend).

The embedded source files are:
  backend/models/Document.js          (documentSchema)
  backend/models/Analysis.js          (analysisSchema)
  backend/controllers/uploadController.js
      uploadFiles, deleteDocument, getDocument
  backend/controllers/analysisController.js
      analyzeDocument, processAnalysisInBackground, getAnalysis,
      addNoteToClause, updateNoteInClause, deleteNoteFromClause,
      exportAnalysisPDF
  backend/workers/analysisWorker.js   (processAnalysisJob)
  backend/config/redis.js             (cacheHelpers)

External collaborators (GridFS byte store, pdf/docx text extraction, the
OpenAI inference call) are passed in as explicit outcome parameters, as the
spec directs.  MongoDB persistence is modelled as explicit in-memory lists;
Mongoose strict-mode saves (which silently drop fields that are not schema
paths) are modelled literally for the upload/dedup path, where that detail
is load-bearing.
-/

namespace LDA

/-- Status enum of documentSchema (Document.js): uploaded, processing,
analyzed, error. -/
inductive DocStatus
  | uploaded
  | processing
  | analyzed
  | error
deriving DecidableEq, Repr

/-- A clause note, from the notes subdocument of analysisSchema
(Analysis.js): text plus createdAt; updateNoteInClause additionally stamps
an updatedAt.  Timestamps are abstract Nat instants. -/
structure Note where
  text : String
  createdAt : Nat
  updatedAt : Option Nat := none
deriving DecidableEq, Repr

/-- A clause subdocument of analysisSchema: open-ended type string, source
text, risk level, explanation, ordered list of notes. -/
structure Clause where
  ctype : String := ""
  text : String := ""
  riskLevel : String := ""
  explanation : String := ""
  notes : List Note := []
deriving DecidableEq, Repr

/-- A risk subdocument of analysisSchema. -/
structure Risk where
  severity : String := ""
  category : String := ""
  description : String := ""
  recommendation : String := ""
deriving DecidableEq, Repr

/-- An Analysis record (analysisSchema, Analysis.js).  id models the Mongo
object id; document is the owning Document id. -/
structure Analysis where
  id : Nat
  document : Nat
  summary : String := ""
  clauses : List Clause := []
  risks : List Risk := []
  overallRiskScore : Nat := 0
  keyFindings : List String := []
  recommendations : List String := []
  processingTime : Nat := 0
  aiModel : String := ""
  tokensUsed : Nat := 0
  analyzedAt : Nat := 0
deriving DecidableEq, Repr

/-- A Document record holding exactly the paths declared in documentSchema
(Document.js).  Note: the schema declares NO fileHash path; this structure
mirrors that.  analysis is the weak AnalysisRef (an Analysis id). -/
structure Doc where
  id : Nat
  user : Nat
  filename : String := ""
  originalName : String := ""
  fileType : String := ""
  fileSize : Nat := 0
  gridFsId : Nat := 0
  uploadDate : Nat := 0
  status : DocStatus := .uploaded
  processingProgress : Nat := 0
  errorMessage : Option String := none
  extractedText : Option String := none
  pageCount : Option Nat := none
  analysis : Option Nat := none
deriving DecidableEq, Repr

/-- The shared mutable stores: Documents and Analyses collections in
MongoDB, the Redis result cache keyed by document id (key analysis:id),
the GridFS blob store (by gridFsId), and a fresh-object-id counter. -/
structure AppState where
  docs : List Doc := []
  analyses : List Analysis := []
  cache : List (Nat × Analysis) := []
  blobs : List Nat := []
  nextId : Nat := 0
deriving DecidableEq, Repr

/-! ### cacheHelpers (backend/config/redis.js) -/

/-- cacheHelpers.get for key analysis:docId. -/
def cacheGet (st : AppState) (docId : Nat) : Option Analysis :=
  (st.cache.find? (fun e => e.1 == docId)).map (fun e => e.2)

/-- cacheHelpers.set for key analysis:docId (overwrites any prior entry;
TTL not modelled beyond existence). -/
def cacheSet (st : AppState) (docId : Nat) (a : Analysis) : AppState :=
  { st with cache := (docId, a) :: st.cache.filter (fun e => e.1 != docId) }

/-- cacheHelpers.del for key analysis:docId. -/
def cacheDel (st : AppState) (docId : Nat) : AppState :=
  { st with cache := st.cache.filter (fun e => e.1 != docId) }

/-! ### Mongo collection helpers -/

/-- Document.findById(id). -/
def findDocById (st : AppState) (docId : Nat) : Option Doc :=
  st.docs.find? (fun d => d.id == docId)

/-- Document.findOne({_id, user}) — the owner-filtered lookup used by
getDocument / deleteDocument / downloadDocument / streamDocument. -/
def findDocOwned (st : AppState) (docId userId : Nat) : Option Doc :=
  st.docs.find? (fun d => d.id == docId && d.user == userId)

/-- document.save(): write back a fetched Document by id. -/
def saveDoc (st : AppState) (d : Doc) : AppState :=
  { st with docs := st.docs.map (fun x => if x.id == d.id then d else x) }

/-- Document.findByIdAndUpdate(id, {status, errorMessage,
processingProgress}) as used by the two error handlers. -/
def docErrorUpdate (st : AppState) (docId : Nat) (msg : String) : AppState :=
  { st with docs := st.docs.map (fun x =>
      if x.id == docId then
        { x with status := .error, errorMessage := some msg, processingProgress := 0 }
      else x) }

/-- Analysis.findOne({document: id}) — first record whose document field
matches. -/
def analysisFindOne (st : AppState) (docId : Nat) : Option Analysis :=
  st.analyses.find? (fun a => a.document == docId)

/-- Analysis.deleteOne({document: id}) — removes at most the first match. -/
def analysisDeleteOne (st : AppState) (docId : Nat) : AppState :=
  { st with analyses := st.analyses.eraseP (fun a => a.document == docId) }

/-- analysis.save(): write back a fetched Analysis record by id. -/
def saveAnalysis (st : AppState) (a : Analysis) : AppState :=
  { st with analyses := st.analyses.map (fun x => if x.id == a.id then a else x) }

/-- Number of Analysis records currently persisted for a document. -/
def analysisCountFor (st : AppState) (docId : Nat) : Nat :=
  (st.analyses.filter (fun a => a.document == docId)).length

/-! ### The structured result of the AI inference collaborator -/

/-- Shape of the aiService.analyzeDocument result consumed by both
pipeline paths. -/
structure AIResult where
  summary : String := ""
  clauses : List Clause := []
  risks : List Risk := []
  overallRiskScore : Nat := 0
  keyFindings : List String := []
  recommendations : List String := []
  aiModel : String := ""
  tokensUsed : Nat := 0
deriving DecidableEq, Repr

/-- Outcome of the external text-extraction collaborator
(extractionService.extractTextFromDocument): error message, or
(text, pageCount). -/
abbrev ExtractOutcome := Except String (String × Nat)

/-- Outcome of the external AI inference collaborator
(aiService.analyzeDocument). -/
abbrev InferOutcome := Except String AIResult

/-! ### Inline background pipeline
(analysisController.processAnalysisInBackground) -/

/-- Result of one background pipeline run: the final state, the ordered
list of processingProgress values written to the Document during the run,
and whether the run succeeded. -/
structure RunResult where
  state : AppState
  docWrites : List Nat
  ok : Bool
deriving DecidableEq, Repr

/-- The $set payload persisted for a document's Analysis, shared by both
pipeline paths (content fields of analysisSchema). -/
def analysisPayload (a : Analysis) (r : AIResult) (processingTime now : Nat)
    (defaultModel : Bool) : Analysis :=
  { a with
    summary := r.summary
    clauses := r.clauses
    risks := r.risks
    overallRiskScore := r.overallRiskScore
    keyFindings := r.keyFindings
    recommendations := r.recommendations
    processingTime := processingTime
    aiModel := if defaultModel && r.aiModel == "" then "gpt-4o-mini" else r.aiModel
    tokensUsed := r.tokensUsed
    analyzedAt := now }

/-- Analysis.findOneAndUpdate({document}, {$set: ...}, {upsert: true,
new: true}) — the inline pipeline's persist stage: overwrite the first
existing record for the document, or insert a fresh one. -/
def analysisUpsert (st : AppState) (docId : Nat) (r : AIResult)
    (processingTime now : Nat) : Analysis × AppState :=
  match analysisFindOne st docId with
  | some old =>
      let upd := analysisPayload old r processingTime now true
      (upd, saveAnalysis st upd)
  | none =>
      let fresh := analysisPayload { id := st.nextId, document := docId } r
        processingTime now true
      (fresh, { st with analyses := st.analyses ++ [fresh], nextId := st.nextId + 1 })

/-- processAnalysisInBackground(documentId, forceRefresh):
walks progress 10 → 20 → (extract) → 50 → 60 → (infer) → 85 → 90 →
(persist) → 95 → (cache) → 100, marking the document analyzed on success;
any thrown failure is caught and recorded via findByIdAndUpdate
{status: error, errorMessage, processingProgress: 0}.  The inline
simulated delays are non-functional and omitted. -/
def processAnalysisInBackground (st : AppState) (documentId : Nat)
    (ext : ExtractOutcome) (ai : InferOutcome)
    (processingTime now : Nat) (redisReady : Bool) : RunResult :=
  match findDocById st documentId with
  | none => { state := st, docWrites := [], ok := false }
  | some doc0 =>
    let st1 := saveDoc st { doc0 with processingProgress := 10 }
    let st2 := saveDoc st1 { doc0 with processingProgress := 20 }
    match ext with
    | .error msg =>
        { state := docErrorUpdate st2 documentId msg
          docWrites := [10, 20, 0], ok := false }
    | .ok (text, pageCount) =>
      if text.length < 100 then
        { state := docErrorUpdate st2 documentId "Extracted text is too short or empty"
          docWrites := [10, 20, 0], ok := false }
      else
        let doc50 := { doc0 with
          extractedText := some text, pageCount := some pageCount,
          processingProgress := 50 }
        let st3 := saveDoc st2 doc50
        let st4 := saveDoc st3 { doc50 with processingProgress := 60 }
        match ai with
        | .error msg =>
            { state := docErrorUpdate st4 documentId msg
              docWrites := [10, 20, 50, 60, 0], ok := false }
        | .ok r =>
          let st5 := saveDoc st4 { doc50 with processingProgress := 85 }
          let st6 := saveDoc st5 { doc50 with processingProgress := 90 }
          let (ana, st7) := analysisUpsert st6 documentId r processingTime now
          let st8 := saveDoc st7 { doc50 with processingProgress := 95 }
          let st9 := if redisReady then cacheSet st8 documentId ana else st8
          let done := { doc50 with
            analysis := some ana.id, status := .analyzed,
            processingProgress := 100 }
          { state := saveDoc st9 done
            docWrites := [10, 20, 50, 60, 85, 90, 95, 100], ok := true }

/-! ### analyzeDocument (analysisController) -/

/-- The three-plus-one response shapes of analysisController.analyzeDocument:
404 document not found, cache hit, already-analyzed database hit, or
accepted (status set to processing and a background run dispatched). -/
inductive AnalyzeOutcome
  | notFound
  | cachedResult (a : Analysis)
  | alreadyAnalyzed (a : Analysis)
  | started
deriving DecidableEq, Repr

/-- analysisController.analyzeDocument(req, res).  callerId is req.user.id,
which the handler never reads; force is req.query.force === true;
redisReady models redisClient && redisClient.isReady.  Returns the
response outcome and the state as of the response (the dispatched
background run is composed separately, as setImmediate defers it). -/
def analyzeDocument (st : AppState) (docId : Nat) (force redisReady : Bool)
    (callerId : Nat) : AnalyzeOutcome × AppState :=
  let _ := callerId
  match findDocById st docId with
  | none => (.notFound, st)
  | some doc =>
    let cacheHit : Option Analysis :=
      if !force && redisReady then cacheGet st docId else none
    match cacheHit with
    | some c => (.cachedResult c, st)
    | none =>
      let dbHit : Option Analysis :=
        if !force && doc.status == .analyzed then analysisFindOne st docId
        else none
      match dbHit with
      | some a =>
          (.alreadyAnalyzed a, if redisReady then cacheSet st docId a else st)
      | none =>
        let st1 := if force then analysisDeleteOne (cacheDel st docId) docId else st
        let doc1 := { doc with
          status := .processing, processingProgress := 5, errorMessage := none }
        (.started, saveDoc st1 doc1)

/-! ### getAnalysis (analysisController) -/

/-- Response shapes of analysisController.getAnalysis: cache hit
(fromCache true), database fallback (fromCache false, read-through
repopulates the cache), or 404. -/
inductive GetAnalysisOutcome
  | fromCache (a : Analysis)
  | fromDb (a : Analysis)
  | notFound
deriving DecidableEq, Repr

/-- analysisController.getAnalysis(req, res).  callerId is req.user.id,
never read by the handler. -/
def getAnalysis (st : AppState) (docId : Nat) (callerId : Nat) :
    GetAnalysisOutcome × AppState :=
  let _ := callerId
  match cacheGet st docId with
  | some c => (.fromCache c, st)
  | none =>
    match analysisFindOne st docId with
    | none => (.notFound, st)
    | some a => (.fromDb a, cacheSet st docId a)

/-- analysisController.exportAnalysisPDF: cache-first fetch of the
Analysis handed to the PDF collaborator (read-through on miss), or 404.
callerId is req.user.id, never read by the handler. -/
def exportAnalysisPDF (st : AppState) (docId : Nat) (callerId : Nat) :
    Option Analysis × AppState :=
  let _ := callerId
  match cacheGet st docId with
  | some c => (some c, st)
  | none =>
    match analysisFindOne st docId with
    | none => (none, st)
    | some a => (some a, cacheSet st docId a)

/-! ### Queue worker path (backend/workers/analysisWorker.js) -/

/-- Result of one worker job (processAnalysisJob): final state, the
processingProgress values written to the Document, the job.progress
values reported to Bull, success flag, and whether the job short-circuited
on a cached analysis. -/
structure WorkerResult where
  state : AppState
  docWrites : List Nat
  jobWrites : List Nat
  ok : Bool
  fromCache : Bool
deriving DecidableEq, Repr

/-- analysisWorker.processAnalysisJob(job): job.progress 10 → find the
document → cached short-circuit → status processing at 10 → extract (40)
→ infer (80) → save a NEW Analysis record (new Analysis(...).save()) →
cache → mark analyzed at 100.  Failures are caught, recorded via
findByIdAndUpdate {status: error, errorMessage, processingProgress: 0},
and re-thrown for Bull's retry. -/
def processAnalysisJob (st : AppState) (documentId : Nat)
    (ext : ExtractOutcome) (ai : InferOutcome)
    (processingTime now : Nat) : WorkerResult :=
  match findDocById st documentId with
  | none =>
      { state := docErrorUpdate st documentId "Document not found"
        docWrites := [], jobWrites := [10], ok := false, fromCache := false }
  | some doc0 =>
    match cacheGet st documentId with
    | some _ =>
        { state := st, docWrites := [], jobWrites := [10]
          ok := true, fromCache := true }
    | none =>
      let doc10 := { doc0 with status := .processing, processingProgress := 10 }
      let st1 := saveDoc st doc10
      match ext with
      | .error msg =>
          { state := docErrorUpdate st1 documentId msg
            docWrites := [10, 0], jobWrites := [10, 20]
            ok := false, fromCache := false }
      | .ok (text, pageCount) =>
        if text.length < 100 then
          { state := docErrorUpdate st1 documentId "Extracted text is too short or empty"
            docWrites := [10, 0], jobWrites := [10, 20]
            ok := false, fromCache := false }
        else
          let doc40 := { doc10 with
            extractedText := some text, pageCount := some pageCount,
            processingProgress := 40 }
          let st2 := saveDoc st1 doc40
          match ai with
          | .error msg =>
              { state := docErrorUpdate st2 documentId msg
                docWrites := [10, 40, 0], jobWrites := [10, 20, 40]
                ok := false, fromCache := false }
          | .ok r =>
            let doc80 := { doc40 with processingProgress := 80 }
            let st3 := saveDoc st2 doc80
            let fresh := analysisPayload { id := st3.nextId, document := documentId }
              r processingTime now false
            let st4 := { st3 with
              analyses := st3.analyses ++ [fresh], nextId := st3.nextId + 1 }
            let st5 := cacheSet st4 documentId fresh
            let done := { doc80 with
              analysis := some fresh.id, status := .analyzed,
              processingProgress := 100 }
            { state := saveDoc st5 done
              docWrites := [10, 40, 80, 100], jobWrites := [10, 20, 40, 80, 100]
              ok := true, fromCache := false }

/-! ### JavaScript numeric plumbing for the note handlers -/

/-- JavaScript parseInt on a radix-10 string: skip leading whitespace,
optional sign, then the longest leading digit run; none models NaN (no
leading digit). -/
def parseIntJS (s : String) : Option Int :=
  let chars := s.toList.dropWhile (fun c => c == ' ' || c == '\t' || c == '\n' || c == '\r')
  let (neg, rest) :=
    match chars with
    | '-' :: t => (true, t)
    | '+' :: t => (false, t)
    | t => (false, t)
  let digits := rest.takeWhile Char.isDigit
  if digits.isEmpty then none
  else
    let v : Nat := digits.foldl (fun acc c => acc * 10 + (c.toNat - '0'.toNat)) 0
    some (if neg then -(v : Int) else (v : Int))

/-- JavaScript a < b where a may be NaN (none): NaN comparisons are
false. -/
def jsLt (a : Option Int) (b : Int) : Bool :=
  match a with
  | none => false
  | some x => x < b

/-- JavaScript a >= b where a may be NaN (none): NaN comparisons are
false. -/
def jsGe (a : Option Int) (b : Int) : Bool :=
  match a with
  | none => false
  | some x => b ≤ x

/-- JavaScript String.prototype.trim: strip whitespace from both ends. -/
def jsTrim (s : String) : String :=
  let ws := fun c => c == ' ' || c == '\t' || c == '\n' || c == '\r'
  String.mk (((s.data.dropWhile ws).reverse.dropWhile ws).reverse)

/-- Monotonically non-decreasing check for a progress-write trace. -/
def nondec : List Nat → Bool
  | [] => true
  | [_] => true
  | a :: b :: t => a ≤ b && nondec (b :: t)

/-- Replace the element at position i (no-op when out of range). -/
def modifyAt {α : Type} : List α → Nat → (α → α) → List α
  | [], _, _ => []
  | x :: xs, 0, f => f x :: xs
  | x :: xs, n + 1, f => x :: modifyAt xs n f

/-! ### Clause-note handlers (analysisController) -/

/-- Response shapes of the three note handlers: 200 with the note /
deletion confirmation, 400 validation rejections, 404, or the 500 catch
(reached when an index parses to NaN and the undefined element access
throws). -/
inductive NoteResult
  | noteAdded (n : Note)
  | noteUpdated (n : Note)
  | noteDeleted
  | textRequired
  | invalidClauseIndex
  | invalidNoteIndex
  | analysisNotFound
  | serverError
deriving DecidableEq, Repr

/-- analysisController.addNoteToClause(req, res).  clauseIndex arrives as
a route-parameter string; noteText as an optional body field; callerId is
req.user.id, never read by the handler. -/
def addNoteToClause (st : AppState) (docId : Nat) (clauseIndex : String)
    (noteText : Option String) (callerId now : Nat) : NoteResult × AppState :=
  let _ := callerId
  match noteText with
  | none => (.textRequired, st)
  | some raw =>
    if (jsTrim raw).length == 0 then (.textRequired, st)
    else
      match analysisFindOne st docId with
      | none => (.analysisNotFound, st)
      | some ana =>
        let idx := parseIntJS clauseIndex
        if jsLt idx 0 || jsGe idx (ana.clauses.length : Int) then
          (.invalidClauseIndex, st)
        else
          match idx with
          | none => (.serverError, st)
          | some i =>
            let newNote : Note := { text := jsTrim raw, createdAt := now }
            let ana1 := { ana with
              clauses := modifyAt ana.clauses i.toNat
                (fun c => { c with notes := c.notes ++ [newNote] }) }
            (.noteAdded newNote, cacheDel (saveAnalysis st ana1) docId)

/-- analysisController.updateNoteInClause(req, res). -/
def updateNoteInClause (st : AppState) (docId : Nat)
    (clauseIndex noteIndex : String) (noteText : Option String)
    (callerId now : Nat) : NoteResult × AppState :=
  let _ := callerId
  match noteText with
  | none => (.textRequired, st)
  | some raw =>
    if (jsTrim raw).length == 0 then (.textRequired, st)
    else
      match analysisFindOne st docId with
      | none => (.analysisNotFound, st)
      | some ana =>
        let cIdx := parseIntJS clauseIndex
        let nIdx := parseIntJS noteIndex
        if jsLt cIdx 0 || jsGe cIdx (ana.clauses.length : Int) then
          (.invalidClauseIndex, st)
        else
          match cIdx with
          | none => (.serverError, st)
          | some ci =>
            match (ana.clauses.get? ci.toNat).map Clause.notes with
            | none => (.serverError, st)
            | some notes =>
              if jsLt nIdx 0 || jsGe nIdx (notes.length : Int) then
                (.invalidNoteIndex, st)
              else
                match nIdx with
                | none => (.serverError, st)
                | some ni =>
                  match notes.get? ni.toNat with
                  | none => (.serverError, st)
                  | some old =>
                    let upd : Note := { old with
                      text := jsTrim raw, updatedAt := some now }
                    let ana1 := { ana with
                      clauses := modifyAt ana.clauses ci.toNat
                        (fun c => { c with
                          notes := modifyAt c.notes ni.toNat (fun _ => upd) }) }
                    (.noteUpdated upd, cacheDel (saveAnalysis st ana1) docId)

/-- analysisController.deleteNoteFromClause(req, res).  Note the splice
semantics: a NaN note index passes both range guards (NaN comparisons are
false) and Array.prototype.splice coerces NaN to 0, so splice(NaN, 1)
removes the FIRST note. -/
def deleteNoteFromClause (st : AppState) (docId : Nat)
    (clauseIndex noteIndex : String) (callerId : Nat) : NoteResult × AppState :=
  let _ := callerId
  match analysisFindOne st docId with
  | none => (.analysisNotFound, st)
  | some ana =>
    let cIdx := parseIntJS clauseIndex
    let nIdx := parseIntJS noteIndex
    if jsLt cIdx 0 || jsGe cIdx (ana.clauses.length : Int) then
      (.invalidClauseIndex, st)
    else
      match cIdx with
      | none => (.serverError, st)
      | some ci =>
        match (ana.clauses.get? ci.toNat).map Clause.notes with
        | none => (.serverError, st)
        | some notes =>
          if jsLt nIdx 0 || jsGe nIdx (notes.length : Int) then
            (.invalidNoteIndex, st)
          else
            let spliceStart : Nat :=
              match nIdx with
              | none => 0
              | some ni => ni.toNat
            let ana1 := { ana with
              clauses := modifyAt ana.clauses ci.toNat
                (fun c => { c with notes := c.notes.eraseIdx spliceStart }) }
            (.noteDeleted, cacheDel (saveAnalysis st ana1) docId)

/-! ### Document CRUD (uploadController) -/

/-- uploadController.getDocument: owner-filtered findOne; none models the
404 response. -/
def getDocument (st : AppState) (docId callerId : Nat) : Option Doc :=
  findDocOwned st docId callerId

/-- Response shapes of uploadController.deleteDocument. -/
inductive DeleteOutcome
  | deleted
  | notFound
deriving DecidableEq, Repr

/-- uploadController.deleteDocument: owner-filtered findOne, then
bucket.delete(gridFsId), then document.deleteOne().  Nothing else is
touched. -/
def deleteDocument (st : AppState) (docId callerId : Nat) :
    DeleteOutcome × AppState :=
  match findDocOwned st docId callerId with
  | none => (.notFound, st)
  | some d =>
    let st1 := { st with blobs := st.blobs.erase d.gridFsId }
    let st2 := { st1 with docs := st1.docs.filter (fun x => x.id != d.id) }
    (.deleted, st2)

/-! ### Upload and content-fingerprint dedup (uploadController.uploadFiles)

Mongoose saves a document strictly against its schema: a field passed to
the model constructor whose key is not a declared schema path is silently
dropped.  Because that strict-mode filtering is exactly what decides the
dedup claim, the upload path is embedded at the level of field maps
checked against the literal path list of documentSchema (Document.js). -/

/-- A persisted field value (string or numeric object id / number). -/
inductive FVal
  | str (s : String)
  | num (n : Nat)
deriving DecidableEq, Repr

/-- A Mongo document as stored: a field map. -/
abbrev MDoc := List (String × FVal)

/-- The paths declared by documentSchema in backend/models/Document.js
(plus the createdAt/updatedAt timestamps option).  There is no fileHash
path. -/
def documentSchemaPaths : List String :=
  ["user", "filename", "originalName", "fileType", "fileSize", "gridFsId",
   "uploadDate", "status", "processingProgress", "errorMessage",
   "extractedText", "pageCount", "analysis", "createdAt", "updatedAt"]

/-- The constructor argument of new Document({...}) in
uploadController.uploadFiles (STEP 4), including the fileHash field the
controller passes. -/
def newDocumentInput (userId : Nat) (filename originalName fileType : String)
    (fileSize gridFsId : Nat) (fileHash : String) : MDoc :=
  [("user", .num userId), ("filename", .str filename),
   ("originalName", .str originalName), ("fileType", .str fileType),
   ("fileSize", .num fileSize), ("gridFsId", .num gridFsId),
   ("fileHash", .str fileHash)]

/-- Mongoose strict-mode save: keep only declared schema paths, then apply
the schema defaults for status and processingProgress. -/
def mongooseStrictSave (input : MDoc) (now : Nat) : MDoc :=
  input.filter (fun p => documentSchemaPaths.contains p.1)
    ++ [("status", .str "uploaded"), ("processingProgress", .num 0),
        ("uploadDate", .num now)]

/-- The dedup query filter of uploadFiles STEP 2:
Document.findOne({user, fileHash, status: analyzed}). -/
def dedupQueryMatches (userId : Nat) (fileHash : String) (d : MDoc) : Bool :=
  d.lookup "user" == some (.num userId)
    && d.lookup "fileHash" == some (.str fileHash)
    && d.lookup "status" == some (.str "analyzed")

/-- Mongo $set of one field on a stored document. -/
def mdocSet (d : MDoc) (key : String) (v : FVal) : MDoc :=
  (key, v) :: d.filter (fun p => p.1 != key)

/-- A successful pipeline run's finalize writes on a stored document:
status analyzed plus the AnalysisRef (both are declared schema paths). -/
def mdocMarkAnalyzed (d : MDoc) (analysisId : Nat) : MDoc :=
  mdocSet (mdocSet d "status" (.str "analyzed")) "analysis" (.num analysisId)

/-- Per-file outcome of uploadFiles: duplicate (short-circuit, a reference
to the existing analysis is returned) or a fresh upload appended to the
Documents collection.  hash models crypto sha256 over the raw bytes. -/
def uploadOne (store : List MDoc) (userId : Nat) (content : List Nat)
    (hash : List Nat → String)
    (filename originalName fileType : String) (fileSize gridFsId now : Nat) :
    Bool × List MDoc :=
  let h := hash content
  let dup := (store.find? (dedupQueryMatches userId h)).filter
    (fun d => (d.lookup "analysis").isSome)
  match dup with
  | some _ => (true, store)
  | none =>
      (false, store ++ [mongooseStrictSave
        (newDocumentInput userId filename originalName fileType fileSize
          gridFsId h) now])

/-- A demonstration content hash for concrete scenarios (the real SHA-256
is an external collaborator; every theorem about uploadOne below holds for
an arbitrary hash function, and witnesses instantiate it with this one). -/
def demoHash (content : List Nat) : String :=
  "sha" ++ toString (content.foldl (fun a b => a * 31 + b) 7)

/-! ### Concrete scenario states used by witnesses and counterexamples -/

/-- A stored clause note. -/
def demoNote : Note := { text := "old", createdAt := 1 }

/-- A stored clause with one note. -/
def demoClause : Clause :=
  { ctype := "Payment", text := "pay within 30 days", riskLevel := "high",
    explanation := "tight deadline", notes := [demoNote] }

/-- A persisted Analysis for document 1. -/
def demoAnalysis : Analysis :=
  { id := 7, document := 1, summary := "a contract", clauses := [demoClause],
    overallRiskScore := 40 }

/-- Document 1, owned by user 1, already analyzed. -/
def demoDoc : Doc :=
  { id := 1, user := 1, gridFsId := 42, status := .analyzed, analysis := some 7 }

/-- State: one analyzed document with its Analysis, empty cache. -/
def demoState : AppState :=
  { docs := [demoDoc], analyses := [demoAnalysis], cache := [], blobs := [42],
    nextId := 8 }

/-- State: document 1 mid-pipeline (processing at 60 percent). -/
def demoProcessingState : AppState :=
  { demoState with
    docs := [{ demoDoc with
               status := .processing, processingProgress := 60,
               analysis := none }] }

/-- State: a freshly uploaded document with no analysis yet. -/
def demoUploadedState : AppState :=
  { docs := [{ id := 1, user := 1, gridFsId := 42 }], analyses := [],
    cache := [], blobs := [42], nextId := 0 }

/-- An extraction outcome long enough to pass the 100-character minimum. -/
def demoLongText : String := String.mk (List.replicate 120 'a')

end LDA

namespace LDA

/-! ## Helper lemmas (shared infrastructure for the claim theorems) -/

theorem cacheGet_cacheDel (st : AppState) (id : Nat) :
    cacheGet (cacheDel st id) id = none := by
  have h : (st.cache.filter (fun e => e.1 != id)).find? (fun e => e.1 == id)
      = none := by
    apply List.find?_eq_none.mpr
    intro x hx
    have hx2 := (List.mem_filter.mp hx).2
    simp only [bne_iff_ne, ne_eq] at hx2
    simp [hx2]
  simp only [cacheGet, cacheDel, h, Option.map_none']

theorem findDocById_id {st : AppState} {id : Nat} {d : Doc}
    (h : findDocById st id = some d) : d.id = id := by
  have := List.find?_some h
  simpa using this

theorem analysisFindOne_document {st : AppState} {id : Nat} {a : Analysis}
    (h : analysisFindOne st id = some a) : a.document = id := by
  have := List.find?_some h
  simpa using this

theorem find?_save_list {l : List Doc} {id : Nat} {d : Doc} (d2 : Doc)
    (h : l.find? (fun x => x.id == id) = some d) (hd : d2.id = id) :
    (l.map (fun x => if x.id == d2.id then d2 else x)).find?
      (fun x => x.id == id) = some d2 := by
  induction l with
  | nil => simp at h
  | cons a t ih =>
    by_cases ha : a.id = id
    · simp [List.find?, ha, hd]
    · have hne : (a.id == id) = false := by simp [ha]
      simp only [List.find?, hne, cond_false] at h
      by_cases hb : a.id = d2.id
      · rw [hd] at hb; exact absurd hb ha
      · have hb' : (a.id == d2.id) = false := by simp [hb]
        simp only [List.map, hb', Bool.false_eq_true, if_false, List.find?,
          hne, cond_false]
        exact ih h

theorem findDocById_saveDoc {st : AppState} {id : Nat} {d : Doc} (d2 : Doc)
    (h : findDocById st id = some d) (hd : d2.id = id) :
    findDocById (saveDoc st d2) id = some d2 :=
  find?_save_list d2 h hd

theorem find?_err_list {l : List Doc} {id : Nat} {d : Doc} (m : String)
    (h : l.find? (fun x => x.id == id) = some d) :
    (l.map (fun x => if x.id == id then
        { x with
          status := .error, errorMessage := some m, processingProgress := 0 }
      else x)).find? (fun x => x.id == id)
      = some { d with
               status := .error, errorMessage := some m,
               processingProgress := 0 } := by
  induction l with
  | nil => simp at h
  | cons a t ih =>
    by_cases ha : a.id = id
    · simp only [List.find?, show (a.id == id) = true by simp [ha],
        cond_true, Option.some.injEq] at h
      subst h
      simp [List.find?, ha]
    · have hne : (a.id == id) = false := by simp [ha]
      simp only [List.find?, hne, cond_false] at h
      simp only [List.map, hne, Bool.false_eq_true, if_false, List.find?,
        cond_false]
      exact ih h

theorem findDocById_docErrorUpdate {st : AppState} {id : Nat} {d : Doc}
    (m : String) (h : findDocById st id = some d) :
    findDocById (docErrorUpdate st id m) id
      = some { d with
               status := .error, errorMessage := some m,
               processingProgress := 0 } :=
  find?_err_list m h

theorem find?_saveAna_list {l : List Analysis} {id : Nat} {a0 : Analysis}
    (a1 : Analysis) (h : l.find? (fun x => x.document == id) = some a0)
    (h1 : a1.id = a0.id) (h2 : a1.document = id) :
    (l.map (fun x => if x.id == a1.id then a1 else x)).find?
      (fun x => x.document == id) = some a1 := by
  induction l with
  | nil => simp at h
  | cons a t ih =>
    by_cases ha : a.document = id
    · simp only [List.find?, show (a.document == id) = true by simp [ha],
        cond_true, Option.some.injEq] at h
      subst h
      simp [List.find?, h1, h2]
    · have hne : (a.document == id) = false := by simp [ha]
      simp only [List.find?, hne, cond_false] at h
      by_cases hb : a.id = a1.id
      · simp only [List.map, show (a.id == a1.id) = true by simp [hb],
          if_true, List.find?, show (a1.document == id) = true by simp [h2],
          cond_true]
      · simp only [List.map, show (a.id == a1.id) = false by simp [hb],
          Bool.false_eq_true, if_false, List.find?, hne, cond_false]
        exact ih h

theorem analysisFindOne_saveAnalysis {st : AppState} {id : Nat}
    {a0 : Analysis} (a1 : Analysis) (h : analysisFindOne st id = some a0)
    (h1 : a1.id = a0.id) (h2 : a1.document = id) :
    analysisFindOne (saveAnalysis st a1) id = some a1 :=
  find?_saveAna_list a1 h h1 h2

theorem modifyAt_length {α : Type} (l : List α) (k : Nat) (f : α → α) :
    (modifyAt l k f).length = l.length := by
  induction l generalizing k with
  | nil => rfl
  | cons a t ih =>
    cases k with
    | zero => rfl
    | succ n => simp [modifyAt, ih]

theorem modifyAt_get_mem {α : Type} (l : List α) (k : Nat) (f : α → α)
    (h : k < l.length) : f (l.get ⟨k, h⟩) ∈ modifyAt l k f := by
  induction l generalizing k with
  | nil => simp at h
  | cons a t ih =>
    cases k with
    | zero => simp [modifyAt]
    | succ n =>
      simp only [modifyAt, List.mem_cons]
      right
      exact ih n (by simpa using h)

theorem lookup_filter_ne (d : MDoc) (k key : String) (h : key ≠ k) :
    (d.filter (fun p => p.1 != k)).lookup key = d.lookup key := by
  induction d with
  | nil => rfl
  | cons a t ih =>
    by_cases h1 : a.1 = k
    · have hk : (key == a.1) = false := by simp [h1, h]
      simp [List.filter, h1, List.lookup, hk, ih,
        show (key == k) = false by simp [h]]
    · simp only [List.filter, show (a.1 != k) = true by simp [h1]]
      by_cases h2 : key = a.1
      · simp [List.lookup, h2]
      · simp [List.lookup, show (key == a.1) = false by simp [h2], ih]

theorem lookup_mdocSet_ne (d : MDoc) (k key : String) (v : FVal)
    (h : key ≠ k) : (mdocSet d k v).lookup key = d.lookup key := by
  simp only [mdocSet, List.lookup, show (key == k) = false by simp [h]]
  exact lookup_filter_ne d k key h

theorem storedUpload_no_fileHash (u fs g now : Nat) (fn onm ft h : String) :
    (mongooseStrictSave (newDocumentInput u fn onm ft fs g h) now).lookup
      "fileHash" = none := rfl

theorem marked_stored_no_fileHash (u fs g now aid : Nat)
    (fn onm ft h : String) :
    (mdocMarkAnalyzed
      (mongooseStrictSave (newDocumentInput u fn onm ft fs g h) now)
      aid).lookup "fileHash" = none := by
  unfold mdocMarkAnalyzed
  rw [lookup_mdocSet_ne _ _ _ _ (by decide), lookup_mdocSet_ne _ _ _ _ (by decide)]
  exact storedUpload_no_fileHash u fs g now fn onm ft h

theorem dedupQuery_misses_stored (u u2 fs g now aid : Nat)
    (fn onm ft h h2 : String) :
    dedupQueryMatches u2 h2
      (mdocMarkAnalyzed
        (mongooseStrictSave (newDocumentInput u fn onm ft fs g h) now) aid)
      = false := by
  have hfh := marked_stored_no_fileHash u fs g now aid fn onm ft h
  simp [dedupQueryMatches, hfh]

end LDA

namespace LDA

/-! ## Claim theorems -/

/-- Claim C1.  The spec asserts that a second byte-identical upload by the
same owner, after the first reached analyzed, is detected as a duplicate —
which requires the fingerprint computed at upload to be persisted with the
Document.  The code computes a SHA-256 fileHash and passes it to the
Document constructor, but documentSchema declares no fileHash path, so the
strict-mode save silently drops it; the dedup query
findOne({user, fileHash, status: analyzed}) can then never match.  This
theorem evaluates the code at the failing input: for every hash function
and every content, after a first upload is marked analyzed, re-uploading
the identical content under the same owner is NOT flagged as a duplicate,
and no stored document carries the fingerprint. -/
theorem C1_dedup_never_fires (hash : List Nat → String) (content : List Nat)
    (u fs g1 g2 t1 t2 aid : Nat) (fn onm ft : String) :
    (uploadOne [] u content hash fn onm ft fs g1 t1).1 = false ∧
    (uploadOne
        ((uploadOne [] u content hash fn onm ft fs g1 t1).2.map
          (fun d => mdocMarkAnalyzed d aid))
        u content hash fn onm ft fs g2 t2).1 = false ∧
    ∀ d ∈ (uploadOne [] u content hash fn onm ft fs g1 t1).2.map
        (fun d => mdocMarkAnalyzed d aid),
      d.lookup "fileHash" = none := by
  have hsaved :
      (uploadOne [] u content hash fn onm ft fs g1 t1).2
        = [mongooseStrictSave
            (newDocumentInput u fn onm ft fs g1 (hash content)) t1] := rfl
  refine ⟨rfl, ?_, ?_⟩
  · have hm := dedupQuery_misses_stored u u fs g1 t1 aid fn onm ft
      (hash content) (hash content)
    simp [hsaved, uploadOne, List.find?, hm, Option.filter]
  · intro d hd
    rw [hsaved] at hd
    simp only [List.map, List.mem_singleton] at hd
    subst hd
    exact marked_stored_no_fileHash u fs g1 t1 aid fn onm ft (hash content)

/-- Claim C1 witness: the failing input made concrete — user 1 uploads the
bytes [1, 2, 3] twice with the demonstration hash; the first upload is
marked analyzed in between, yet the second upload is not detected as a
duplicate. -/
theorem C1_dedup_never_fires_witness :
    (uploadOne
      ((uploadOne [] 1 [1, 2, 3] demoHash "f.pdf" "f.pdf" "pdf" 3 42 0).2.map
        (fun d => mdocMarkAnalyzed d 7))
      1 [1, 2, 3] demoHash "f.pdf" "f.pdf" "pdf" 3 43 9).1 = false :=
  (C1_dedup_never_fires demoHash [1, 2, 3] 1 3 42 43 0 9 7
    "f.pdf" "f.pdf" "pdf").2.1

/-- Claim C2 counterexample: document 1 is mid-pipeline (status
processing at progress 60); an analyze request arriving now is neither
rejected nor coalesced — it is accepted (started) and resets the
document's progress to 5, dispatching a second background pipeline run
concurrent with the in-flight one. -/
theorem C2_counterexample :
    (findDocById demoProcessingState 1).map Doc.status = some .processing ∧
    (analyzeDocument demoProcessingState 1 false true 9).1
      = AnalyzeOutcome.started ∧
    (findDocById (analyzeDocument demoProcessingState 1 false true 9).2
      1).map Doc.processingProgress = some 5 :=
  ⟨rfl, rfl, rfl⟩

/-- Claim C2 amended: analyzeDocument has no concurrency guard.  Whenever
the document exists — in particular while its status is processing — and
no cached analysis short-circuits the request (cache miss or Redis
unavailable), a non-force analyze request is accepted: the handler
overwrites status to processing, resets progress to 5, clears the error,
and dispatches another background pipeline run racing any in-flight one. -/
theorem C2_no_concurrency_guard (st : AppState) (id : Nat) (d : Doc)
    (redisReady : Bool) (caller : Nat)
    (hfd : findDocById st id = some d) (hstat : d.status = .processing)
    (hc : redisReady = false ∨ cacheGet st id = none) :
    (analyzeDocument st id false redisReady caller).1
      = AnalyzeOutcome.started ∧
    findDocById (analyzeDocument st id false redisReady caller).2 id
      = some { d with
               status := .processing, processingProgress := 5,
               errorMessage := none } := by
  have hid : d.id = id := findDocById_id hfd
  have hch : (if !false && redisReady then cacheGet st id else none) = none := by
    rcases hc with hc | hc
    · simp [hc]
    · simp [hc]
  have hdb : (if !false && d.status == DocStatus.analyzed
      then analysisFindOne st id else none) = none := by
    simp [hstat]
  simp only [analyzeDocument, hfd, hch, hdb, if_neg (by simp : ¬(false = true))]
  constructor
  · trivial
  · exact findDocById_saveDoc _ hfd hid

/-- Claim C2 witness: the guardless acceptance applied to the concrete
mid-pipeline state. -/
theorem C2_no_concurrency_guard_witness :
    (analyzeDocument demoProcessingState 1 false true 9).1
      = AnalyzeOutcome.started ∧
    findDocById (analyzeDocument demoProcessingState 1 false true 9).2 1
      = some { demoDoc with
               status := .processing, processingProgress := 5,
               errorMessage := none, analysis := none } :=
  C2_no_concurrency_guard demoProcessingState 1
    { demoDoc with
      status := .processing, processingProgress := 60, analysis := none }
    true 9 rfl rfl (Or.inr rfl)

/-- Claim C3 counterexample: document 1 is owned by user 1, yet a note
mutation invoked on behalf of user 2 succeeds and changes the stored
Analysis — the handler performs no owner check, contradicting the claim
that it fails with not-found and leaves the analysis unchanged. -/
theorem C3_counterexample :
    demoDoc.user = 1 ∧
    (addNoteToClause demoState 1 "0" (some "intruder note") 2 5).1
      = NoteResult.noteAdded { text := "intruder note", createdAt := 5 } ∧
    (addNoteToClause demoState 1 "0" (some "intruder note") 2 5).2.analyses.map
        (fun a => a.clauses.map (fun c => c.notes.length)) = [[2]] ∧
    demoState.analyses.map
        (fun a => a.clauses.map (fun c => c.notes.length)) = [[1]] :=
  ⟨rfl, rfl, rfl, rfl⟩

/-- Claim C3 amended: owner verification (404 not-found for a non-owner)
exists only on the document CRUD handlers, which query
findOne({_id, user}); the analyze, getAnalysis, note add/update/delete and
PDF-export handlers never read the caller identity — their behaviour is
identical for every caller, owner or not. -/
theorem C3_ownership_scope :
    (∀ st id caller, (∀ d ∈ st.docs, d.id = id → d.user ≠ caller) →
      getDocument st id caller = none ∧
      deleteDocument st id caller = (.notFound, st)) ∧
    (∀ st id cs txt c1 c2 now,
      addNoteToClause st id cs txt c1 now
        = addNoteToClause st id cs txt c2 now) ∧
    (∀ st id cs ns txt c1 c2 now,
      updateNoteInClause st id cs ns txt c1 now
        = updateNoteInClause st id cs ns txt c2 now) ∧
    (∀ st id cs ns c1 c2,
      deleteNoteFromClause st id cs ns c1 = deleteNoteFromClause st id cs ns c2) ∧
    (∀ st id c1 c2, getAnalysis st id c1 = getAnalysis st id c2) ∧
    (∀ st id c1 c2, exportAnalysisPDF st id c1 = exportAnalysisPDF st id c2) ∧
    (∀ st id f r c1 c2,
      analyzeDocument st id f r c1 = analyzeDocument st id f r c2) := by
  refine ⟨?_, fun _ _ _ _ _ _ _ => rfl, fun _ _ _ _ _ _ _ _ => rfl,
    fun _ _ _ _ _ _ => rfl, fun _ _ _ _ => rfl, fun _ _ _ _ => rfl,
    fun _ _ _ _ _ _ => rfl⟩
  intro st id caller h
  have hfind : findDocOwned st id caller = none := by
    apply List.find?_eq_none.mpr
    intro d hd
    by_cases hdi : d.id = id
    · have := h d hd hdi
      simp [hdi, this]
    · simp [hdi]
  constructor
  · exact hfind
  · simp [deleteDocument, hfind]

/-- Claim C3 witness: the owner-filtered CRUD lookups applied at a
concrete non-owner caller (user 2 against user 1's document). -/
theorem C3_ownership_scope_witness :
    getDocument demoState 1 2 = none ∧
    deleteDocument demoState 1 2 = (.notFound, demoState) :=
  C3_ownership_scope.1 demoState 1 2 (by decide)

/-- Claim C7 counterexample: deleting document 1 (which has a persisted
Analysis) removes the document and its stored bytes but leaves the
Analysis record behind — the delete does not cascade to the Analysis as
the claim asserts. -/
theorem C7_counterexample :
    (deleteDocument demoState 1 1).1 = DeleteOutcome.deleted ∧
    (deleteDocument demoState 1 1).2.docs = [] ∧
    (deleteDocument demoState 1 1).2.blobs = [] ∧
    analysisFindOne (deleteDocument demoState 1 1).2 1 = some demoAnalysis :=
  ⟨rfl, rfl, rfl, rfl⟩

/-- Claim C7 amended: a successful owner delete destroys the stored raw
bytes (GridFS blob) and the Document record, and touches nothing else —
the document's Analysis record and any cache entry survive the delete. -/
theorem C7_delete_cascade_scope (st : AppState) (id caller : Nat) (d : Doc)
    (h : findDocOwned st id caller = some d) :
    deleteDocument st id caller
      = (.deleted,
         { st with
           blobs := st.blobs.erase d.gridFsId,
           docs := st.docs.filter (fun x => x.id != d.id) }) ∧
    (deleteDocument st id caller).2.analyses = st.analyses ∧
    (deleteDocument st id caller).2.cache = st.cache := by
  constructor
  · simp [deleteDocument, h]
  · simp [deleteDocument, h]

/-- Claim C7 witness: the delete scope applied at the concrete analyzed
state, owner calling. -/
theorem C7_delete_cascade_scope_witness :
    deleteDocument demoState 1 1
      = (.deleted,
         { demoState with
           blobs := demoState.blobs.erase demoDoc.gridFsId,
           docs := demoState.docs.filter (fun x => x.id != demoDoc.id) }) ∧
    (deleteDocument demoState 1 1).2.analyses = demoState.analyses ∧
    (deleteDocument demoState 1 1).2.cache = demoState.cache :=
  C7_delete_cascade_scope demoState 1 1 demoDoc rfl

/-- Claim C4 counterexample: document 1 already has one persisted
Analysis; a successful queue-worker run (cache empty, long text, inference
succeeds) leaves TWO Analysis records for the document — the worker path
inserts a fresh record instead of upserting, so the at-most-one invariant
is violated. -/
theorem C4_counterexample :
    analysisCountFor demoState 1 = 1 ∧
    (processAnalysisJob demoState 1 (.ok (demoLongText, 2)) (.ok {}) 3 4).ok
      = true ∧
    analysisCountFor
      (processAnalysisJob demoState 1 (.ok (demoLongText, 2)) (.ok {}) 3
        4).state 1 = 2 :=
  ⟨rfl, rfl, rfl⟩

/-- Claim C4 amended: only the inline pipeline path persists by upsert —
when a record for the document exists, findOneAndUpdate overwrites it in
place and the collection does not grow, and when none exists exactly one
record is created.  The queue-worker path instead inserts a brand-new
Analysis record on every successful run, growing the collection by one, so
a worker re-analysis appends rather than replaces. -/
theorem C4_persist_paths :
    (∀ st docId r pt now a0, analysisFindOne st docId = some a0 →
      (analysisUpsert st docId r pt now).2.analyses.length
        = st.analyses.length) ∧
    (∀ st docId r pt now, analysisFindOne st docId = none →
      analysisCountFor st docId = 0 ∧
      analysisCountFor (analysisUpsert st docId r pt now).2 docId = 1) ∧
    (∀ st id d text pc pt now r, findDocById st id = some d →
      cacheGet st id = none → ¬(text.length < 100) →
      (processAnalysisJob st id (.ok (text, pc)) (.ok r) pt now).ok = true ∧
      (processAnalysisJob st id (.ok (text, pc)) (.ok r) pt
        now).state.analyses.length = st.analyses.length + 1) := by
  refine ⟨?_, ?_, ?_⟩
  · intro st docId r pt now a0 h
    simp [analysisUpsert, h, saveAnalysis]
  · intro st docId r pt now h
    have hnil : st.analyses.filter (fun a => a.document == docId) = [] := by
      apply List.filter_eq_nil_iff.mpr
      intro a ha
      have := List.find?_eq_none.mp h a ha
      simpa using this
    constructor
    · simp [analysisCountFor, hnil]
    · simp [analysisUpsert, h, analysisCountFor, List.filter_append, hnil,
        analysisPayload]
  · intro st id d text pc pt now r hfd hcg hlen
    simp [processAnalysisJob, hfd, hcg, hlen, saveDoc, cacheSet]

/-- Claim C4 witness: the three persist shapes applied at the concrete
analyzed state (inline upsert on the existing record; inline insert after
the record is removed; worker append). -/
theorem C4_persist_paths_witness :
    (analysisUpsert demoState 1 {} 3 4).2.analyses.length
      = demoState.analyses.length ∧
    analysisCountFor (analysisUpsert (analysisDeleteOne demoState 1) 1 {} 3
      4).2 1 = 1 ∧
    (processAnalysisJob demoState 1 (.ok (demoLongText, 2)) (.ok {}) 3
      4).state.analyses.length = demoState.analyses.length + 1 :=
  ⟨C4_persist_paths.1 demoState 1 {} 3 4 demoAnalysis rfl,
   (C4_persist_paths.2.1 (analysisDeleteOne demoState 1) 1 {} 3 4 rfl).2,
   (C4_persist_paths.2.2 demoState 1 demoDoc demoLongText 2 3 4 {} rfl rfl
     (by decide)).2⟩

end LDA

namespace LDA

/-- Shared shape lemma: a non-force analyze request on an existing,
not-yet-analyzed document with no cache hit is accepted — the handler
returns started after writing status processing, progress 5 and a cleared
error. -/
theorem analyze_accepts (st : AppState) (id : Nat) (d : Doc) (rr : Bool)
    (caller : Nat) (hfd : findDocById st id = some d)
    (hc : rr = false ∨ cacheGet st id = none)
    (hstat : (d.status == DocStatus.analyzed) = false) :
    analyzeDocument st id false rr caller
      = (.started,
         saveDoc st { d with
                      status := .processing, processingProgress := 5,
                      errorMessage := none }) := by
  have hstat2 : d.status ≠ DocStatus.analyzed := by
    simpa using hstat
  rcases hc with hc | hc
  · subst hc
    simp [analyzeDocument, hfd, hstat2]
  · simp [analyzeDocument, hfd, hc, hstat2, ite_self]

/-- Claim C5.  When extraction yields text shorter than the 100-character
minimum, the inline pipeline run fails: the document ends in status error
with the non-empty message the code throws and progress reset to 0, the
AnalysisRef field is untouched (so it stays unset if it was unset) and no
Analysis is written; a subsequent analyze request is then accepted — it
clears the stored error, resets progress to the small non-zero value 5,
sets status processing and dispatches a fresh run. -/
theorem C5_extraction_failure_then_retry (st : AppState) (id : Nat)
    (d : Doc) (text : String) (pc pt now : Nat) (ai : InferOutcome)
    (rr rr2 : Bool) (caller : Nat)
    (hfd : findDocById st id = some d) (hcg : cacheGet st id = none)
    (hlen : text.length < 100) :
    (processAnalysisInBackground st id (.ok (text, pc)) ai pt now rr).ok
      = false ∧
    findDocById
        (processAnalysisInBackground st id (.ok (text, pc)) ai pt now
          rr).state id
      = some { d with
               status := .error,
               errorMessage := some "Extracted text is too short or empty",
               processingProgress := 0 } ∧
    "Extracted text is too short or empty" ≠ "" ∧
    (findDocById (processAnalysisInBackground st id (.ok (text, pc)) ai pt
        now rr).state id).map Doc.analysis = some d.analysis ∧
    (processAnalysisInBackground st id (.ok (text, pc)) ai pt now
      rr).state.analyses = st.analyses ∧
    (analyzeDocument (processAnalysisInBackground st id (.ok (text, pc)) ai
        pt now rr).state id false rr2 caller).1 = AnalyzeOutcome.started ∧
    findDocById
        (analyzeDocument (processAnalysisInBackground st id (.ok (text, pc))
          ai pt now rr).state id false rr2 caller).2 id
      = some { d with
               status := .processing, processingProgress := 5,
               errorMessage := none } := by
  have hid : d.id = id := findDocById_id hfd
  have hr : processAnalysisInBackground st id (.ok (text, pc)) ai pt now rr
      = { state := docErrorUpdate
            (saveDoc (saveDoc st { d with processingProgress := 10 })
              { d with processingProgress := 20 })
            id "Extracted text is too short or empty",
          docWrites := [10, 20, 0], ok := false } := by
    simp [processAnalysisInBackground, hfd, hlen]
  have h1 : findDocById (saveDoc st { d with processingProgress := 10 }) id
      = some { d with processingProgress := 10 } :=
    findDocById_saveDoc _ hfd hid
  have h2 : findDocById
      (saveDoc (saveDoc st { d with processingProgress := 10 })
        { d with processingProgress := 20 }) id
      = some { d with processingProgress := 20 } :=
    findDocById_saveDoc _ h1 hid
  have h3 : findDocById
      (docErrorUpdate
        (saveDoc (saveDoc st { d with processingProgress := 10 })
          { d with processingProgress := 20 })
        id "Extracted text is too short or empty") id
      = some { d with
               status := .error,
               errorMessage := some "Extracted text is too short or empty",
               processingProgress := 0 } :=
    @findDocById_docErrorUpdate _ _ { d with processingProgress := 20 }
      "Extracted text is too short or empty" h2
  have h6 := analyze_accepts
    (docErrorUpdate
      (saveDoc (saveDoc st { d with processingProgress := 10 })
        { d with processingProgress := 20 })
      id "Extracted text is too short or empty")
    id
    { d with
      status := .error,
      errorMessage := some "Extracted text is too short or empty",
      processingProgress := 0 }
    rr2 caller h3 (Or.inr hcg) rfl
  refine ⟨by rw [hr], by rw [hr]; exact h3, by decide, ?_,
    by rw [hr]; rfl, ?_, ?_⟩
  · rw [hr]
    show (findDocById _ id).map Doc.analysis = some d.analysis
    rw [h3]
    rfl
  · rw [hr]
    show (analyzeDocument _ id false rr2 caller).1 = AnalyzeOutcome.started
    rw [h6]
  · rw [hr]
    show findDocById (analyzeDocument _ id false rr2 caller).2 id = _
    rw [h6]
    exact findDocById_saveDoc _ h3 hid

/-- Claim C5 witness: the failure-then-retry scenario at the concrete
uploaded state with the too-short extraction result. -/
theorem C5_extraction_failure_then_retry_witness :
    (processAnalysisInBackground demoUploadedState 1 (.ok ("short", 1))
      (.ok {}) 3 4 true).ok = false ∧
    findDocById
        (processAnalysisInBackground demoUploadedState 1 (.ok ("short", 1))
          (.ok {}) 3 4 true).state 1
      = some { ({ id := 1, user := 1, gridFsId := 42 } : Doc) with
               status := .error,
               errorMessage := some "Extracted text is too short or empty",
               processingProgress := 0 } ∧
    "Extracted text is too short or empty" ≠ "" ∧
    (findDocById (processAnalysisInBackground demoUploadedState 1
        (.ok ("short", 1)) (.ok {}) 3 4 true).state 1).map Doc.analysis
      = some none ∧
    (processAnalysisInBackground demoUploadedState 1 (.ok ("short", 1))
      (.ok {}) 3 4 true).state.analyses = demoUploadedState.analyses ∧
    (analyzeDocument (processAnalysisInBackground demoUploadedState 1
        (.ok ("short", 1)) (.ok {}) 3 4 true).state 1 false true 9).1
      = AnalyzeOutcome.started ∧
    findDocById
        (analyzeDocument (processAnalysisInBackground demoUploadedState 1
          (.ok ("short", 1)) (.ok {}) 3 4 true).state 1 false true 9).2 1
      = some { ({ id := 1, user := 1, gridFsId := 42 } : Doc) with
               status := .processing, processingProgress := 5,
               errorMessage := none } :=
  C5_extraction_failure_then_retry demoUploadedState 1
    { id := 1, user := 1, gridFsId := 42 } "short" 1 3 4 (.ok {}) true true 9
    rfl rfl (by decide)

/-- Shared shape lemma: after a note mutation writes the updated Analysis
and deletes the cache entry, the cache misses, the persisted record is the
updated one, and getAnalysis serves it from the database (read-through). -/
theorem noteMutation_post (st : AppState) (id caller : Nat)
    (ana : Analysis) (cl2 : List Clause)
    (hana : analysisFindOne st id = some ana) :
    cacheGet (cacheDel (saveAnalysis st { ana with clauses := cl2 }) id) id
      = none ∧
    analysisFindOne
        (cacheDel (saveAnalysis st { ana with clauses := cl2 }) id) id
      = some { ana with clauses := cl2 } ∧
    getAnalysis (cacheDel (saveAnalysis st { ana with clauses := cl2 }) id)
        id caller
      = (.fromDb { ana with clauses := cl2 },
         cacheSet
           (cacheDel (saveAnalysis st { ana with clauses := cl2 }) id) id
           { ana with clauses := cl2 }) := by
  have h0 : ana.document = id := analysisFindOne_document hana
  have hdoc2 : ({ ana with clauses := cl2 } : Analysis).document = id := h0
  have hs : analysisFindOne (saveAnalysis st { ana with clauses := cl2 }) id
      = some { ana with clauses := cl2 } :=
    analysisFindOne_saveAnalysis _ hana rfl hdoc2
  have hs2 : analysisFindOne
      (cacheDel (saveAnalysis st { ana with clauses := cl2 }) id) id
      = some { ana with clauses := cl2 } := hs
  have hc := cacheGet_cacheDel (saveAnalysis st { ana with clauses := cl2 }) id
  refine ⟨hc, hs2, ?_⟩
  simp only [getAnalysis, hc, hs2]

/-- Claim C6.  Every successful note mutation (add, update, delete) leaves
the ResultCache with no entry for the document (the handler deletes the
key before responding success), so a getAnalysis issued immediately
afterwards misses the cache and serves the freshly persisted Analysis via
the database fallback — for add and update, that served Analysis contains
the new/updated note. -/
theorem C6_note_mutations_invalidate_cache :
    (∀ st id cs t caller now n st',
      addNoteToClause st id cs t caller now = (.noteAdded n, st') →
      cacheGet st' id = none ∧
      ∃ a, analysisFindOne st' id = some a ∧
        getAnalysis st' id caller = (.fromDb a, cacheSet st' id a) ∧
        ∃ c ∈ a.clauses, n ∈ c.notes) ∧
    (∀ st id cs ns t caller now n st',
      updateNoteInClause st id cs ns t caller now = (.noteUpdated n, st') →
      cacheGet st' id = none ∧
      ∃ a, analysisFindOne st' id = some a ∧
        getAnalysis st' id caller = (.fromDb a, cacheSet st' id a) ∧
        ∃ c ∈ a.clauses, n ∈ c.notes) ∧
    (∀ st id cs ns caller st',
      deleteNoteFromClause st id cs ns caller = (.noteDeleted, st') →
      cacheGet st' id = none ∧
      ∃ a, analysisFindOne st' id = some a ∧
        getAnalysis st' id caller = (.fromDb a, cacheSet st' id a)) := by
  refine ⟨?_, ?_, ?_⟩
  · intro st id cs t caller now n st' h
    unfold addNoteToClause at h
    split at h
    · simp at h
    · split at h
      · simp at h
      · split at h
        · simp at h
        · rename_i ana hana
          dsimp only at h
          split at h
          · simp at h
          · rename_i hguard
            split at h
            · simp at h
            · rename_i i hidx
              simp only [Prod.mk.injEq, NoteResult.noteAdded.injEq] at h
              obtain ⟨hn, hst⟩ := h
              subst hst
              subst hn
              have hk : i.toNat < ana.clauses.length := by
                simp [hidx, jsLt, jsGe, not_or] at hguard
                omega
              refine ⟨(noteMutation_post st id caller ana _ hana).1, _,
                (noteMutation_post st id caller ana _ hana).2.1,
                (noteMutation_post st id caller ana _ hana).2.2, ?_⟩
              exact ⟨_, modifyAt_get_mem ana.clauses i.toNat _ hk, by simp⟩
  · intro st id cs ns t caller now n st' h
    unfold updateNoteInClause at h
    split at h
    · simp at h
    · split at h
      · simp at h
      · split at h
        · simp at h
        · rename_i ana hana
          dsimp only at h
          split at h
          · simp at h
          · rename_i hguardC
            split at h
            · simp at h
            · rename_i ci hci
              split at h
              · simp at h
              · rename_i notes hget
                split at h
                · simp at h
                · rename_i hguardN
                  split at h
                  · simp at h
                  · rename_i ni hni
                    split at h
                    · simp at h
                    · rename_i old hold
                      simp only [Prod.mk.injEq,
                        NoteResult.noteUpdated.injEq] at h
                      obtain ⟨hn, hst⟩ := h
                      subst hst
                      subst hn
                      have hkC : ci.toNat < ana.clauses.length := by
                        simp [hci, jsLt, jsGe, not_or] at hguardC
                        omega
                      obtain ⟨cl, hcl, hclnotes⟩ :=
                        Option.map_eq_some'.mp hget
                      have hclget : cl = ana.clauses.get ⟨ci.toNat, hkC⟩ := by
                        rw [List.get?_eq_get hkC] at hcl
                        exact ((Option.some.injEq _ _).mp hcl).symm
                      have hkN : ni.toNat < notes.length :=
                        (List.get?_eq_some.mp hold).1
                      have hkN2 : ni.toNat
                          < (ana.clauses.get ⟨ci.toNat, hkC⟩).notes.length := by
                        rw [← hclget, hclnotes]
                        exact hkN
                      refine ⟨(noteMutation_post st id caller ana _ hana).1,
                        _,
                        (noteMutation_post st id caller ana _ hana).2.1,
                        (noteMutation_post st id caller ana _ hana).2.2, ?_⟩
                      refine ⟨_, modifyAt_get_mem ana.clauses ci.toNat _ hkC,
                        ?_⟩
                      show _ ∈ (modifyAt
                        (ana.clauses.get ⟨ci.toNat, hkC⟩).notes ni.toNat
                        _)
                      exact modifyAt_get_mem _ ni.toNat _ hkN2
  · intro st id cs ns caller st' h
    unfold deleteNoteFromClause at h
    split at h
    · simp at h
    · rename_i ana hana
      dsimp only at h
      split at h
      · simp at h
      · split at h
        · simp at h
        · rename_i ci hci
          split at h
          · simp at h
          · rename_i notes hget
            split at h
            · simp at h
            · simp only [Prod.mk.injEq, true_and] at h
              subst h
              exact ⟨(noteMutation_post st id caller ana _ hana).1, _,
                (noteMutation_post st id caller ana _ hana).2.1,
                (noteMutation_post st id caller ana _ hana).2.2⟩

/-- Claim C6 witness: adding a note to clause 0 of the concrete analyzed
state invalidates the cache and getAnalysis immediately serves the
persisted analysis containing the new note. -/
theorem C6_note_mutations_invalidate_cache_witness :
    cacheGet (addNoteToClause demoState 1 "0" (some "check this") 1 5).2 1
      = none ∧
    ∃ a, analysisFindOne
        (addNoteToClause demoState 1 "0" (some "check this") 1 5).2 1
        = some a ∧
      getAnalysis (addNoteToClause demoState 1 "0" (some "check this") 1
          5).2 1 1
        = (.fromDb a,
           cacheSet (addNoteToClause demoState 1 "0" (some "check this") 1
             5).2 1 a) ∧
      ∃ c ∈ a.clauses,
        ({ text := "check this", createdAt := 5 } : Note) ∈ c.notes :=
  C6_note_mutations_invalidate_cache.1 demoState 1 "0" (some "check this")
    1 5 { text := "check this", createdAt := 5 }
    (addNoteToClause demoState 1 "0" (some "check this") 1 5).2 rfl

/-- Claim C8 counterexample: an inline run whose extraction stage fails
writes the progress sequence 10, 20, 0 for the document — the final
error-handler write resets progress to 0 within the same run, so the
sequence of ProcessingProgress values written during a single run is NOT
monotonically non-decreasing. -/
theorem C8_counterexample :
    (processAnalysisInBackground demoUploadedState 1 (.error "read failure")
      (.ok {}) 3 4 true).docWrites = [10, 20, 0] ∧
    nondec
      (processAnalysisInBackground demoUploadedState 1 (.error "read failure")
        (.ok {}) 3 4 true).docWrites = false :=
  ⟨rfl, rfl⟩

/-- Claim C8 amended: on both pipeline paths every progress value written
lies in 0..100, and a successful run's write sequence is monotonically
non-decreasing (ending at 100).  A failing run's writes are non-decreasing
up to the failure and end with a single reset write of 0 (recorded
together with status error); the Bull job.progress sequence of the worker
is always non-decreasing. -/
theorem C8_progress_writes (st : AppState) (id : Nat) (d : Doc)
    (ext : ExtractOutcome) (ai : InferOutcome) (pt now : Nat) (rr : Bool)
    (hfd : findDocById st id = some d) :
    (∀ p ∈ (processAnalysisInBackground st id ext ai pt now rr).docWrites,
      p ≤ 100) ∧
    ((processAnalysisInBackground st id ext ai pt now rr).ok = true →
      nondec (processAnalysisInBackground st id ext ai pt now rr).docWrites
        = true) ∧
    ((processAnalysisInBackground st id ext ai pt now rr).ok = false →
      (processAnalysisInBackground st id ext ai pt now
        rr).docWrites.getLast? = some 0 ∧
      nondec (processAnalysisInBackground st id ext ai pt now
        rr).docWrites.dropLast = true) ∧
    (∀ p ∈ (processAnalysisJob st id ext ai pt now).docWrites, p ≤ 100) ∧
    ((processAnalysisJob st id ext ai pt now).ok = true →
      nondec (processAnalysisJob st id ext ai pt now).docWrites = true) ∧
    ((processAnalysisJob st id ext ai pt now).ok = false →
      (processAnalysisJob st id ext ai pt now).docWrites.getLast?
        = some 0 ∧
      nondec (processAnalysisJob st id ext ai pt now).docWrites.dropLast
        = true) ∧
    nondec (processAnalysisJob st id ext ai pt now).jobWrites = true ∧
    (∀ p ∈ (processAnalysisJob st id ext ai pt now).jobWrites, p ≤ 100) := by
  rcases hcg : cacheGet st id with _ | ca
  · rcases ext with msg | tp
    · simp only [processAnalysisInBackground, processAnalysisJob, hfd, hcg]
      decide
    · obtain ⟨text, pc⟩ := tp
      by_cases hlen : text.length < 100
      · simp only [processAnalysisInBackground, processAnalysisJob, hfd,
          hcg, if_pos hlen]
        decide
      · rcases ai with m2 | r
        · simp only [processAnalysisInBackground, processAnalysisJob, hfd,
            hcg, if_neg hlen]
          decide
        · simp only [processAnalysisInBackground, processAnalysisJob, hfd,
            hcg, if_neg hlen]
          decide
  · rcases ext with msg | tp
    · simp only [processAnalysisInBackground, processAnalysisJob, hfd, hcg]
      decide
    · obtain ⟨text, pc⟩ := tp
      by_cases hlen : text.length < 100
      · simp only [processAnalysisInBackground, processAnalysisJob, hfd,
          hcg, if_pos hlen]
        decide
      · rcases ai with m2 | r
        · simp only [processAnalysisInBackground, processAnalysisJob, hfd,
            hcg, if_neg hlen]
          decide
        · simp only [processAnalysisInBackground, processAnalysisJob, hfd,
            hcg, if_neg hlen]
          decide

/-- Claim C8 witness: a successful inline run's writes are non-decreasing,
and a failing worker run's writes end with the 0 reset. -/
theorem C8_progress_writes_witness :
    nondec (processAnalysisInBackground demoUploadedState 1
      (.ok (demoLongText, 2)) (.ok {}) 3 4 true).docWrites = true ∧
    (processAnalysisJob demoUploadedState 1 (.error "disk gone") (.ok {}) 3
      4).docWrites.getLast? = some 0 :=
  ⟨(C8_progress_writes demoUploadedState 1 { id := 1, user := 1, gridFsId := 42 }
      (.ok (demoLongText, 2)) (.ok {}) 3 4 true rfl).2.1 rfl,
   ((C8_progress_writes demoUploadedState 1 { id := 1, user := 1, gridFsId := 42 }
      (.error "disk gone") (.ok {}) 3 4 true rfl).2.2.2.2.2.1 rfl).1⟩

theorem modifyAt_get? {α : Type} (l : List α) (k : Nat) (f : α → α) :
    (modifyAt l k f).get? k = (l.get? k).map f := by
  induction l generalizing k with
  | nil => cases k <;> rfl
  | cons a t ih =>
    cases k with
    | zero => rfl
    | succ m => simpa [modifyAt] using ih m

/-- Claim C9 counterexample: with a valid Analysis in place, a non-numeric
clause index string ("abc") on addNote parses to NaN, passes both range
guards (NaN comparisons are false) and crashes on the undefined element —
surfacing as the generic 500 handler, not an index-out-of-range error.
Worse, a non-numeric note index on deleteNote is coerced to 0 by splice
and SILENTLY DELETES the first note, reporting success. -/
theorem C9_counterexample :
    addNoteToClause demoState 1 "abc" (some "hi") 2 5
      = (NoteResult.serverError, demoState) ∧
    (deleteNoteFromClause demoState 1 "0" "oops" 2).1
      = NoteResult.noteDeleted ∧
    (∃ a, analysisFindOne (deleteNoteFromClause demoState 1 "0" "oops" 2).2 1
      = some a ∧ a.clauses.map (fun c => c.notes.length) = [0]) :=
  ⟨rfl, rfl, ⟨_, rfl, rfl⟩⟩

/-- Claim C9 amended: for numeric index strings the outcome is exactly the
updated note or an index-out-of-range rejection with the Analysis
unchanged; but a NON-numeric index string bypasses the range guards
(parseInt yields NaN, whose comparisons are all false): on add/update it
surfaces as a generic server error (state unchanged), while on delete the
splice coerces NaN to 0 and succeeds, removing the clause's FIRST note. -/
theorem C9_note_index_handling :
    (∀ st id cs raw caller now ana, analysisFindOne st id = some ana →
      (jsTrim raw).length ≠ 0 →
      (parseIntJS cs = none →
        addNoteToClause st id cs (some raw) caller now
          = (.serverError, st)) ∧
      (∀ i, parseIntJS cs = some i →
        (i < 0 ∨ (ana.clauses.length : Int) ≤ i) →
        addNoteToClause st id cs (some raw) caller now
          = (.invalidClauseIndex, st)) ∧
      (∀ i, parseIntJS cs = some i → 0 ≤ i →
        i < (ana.clauses.length : Int) →
        ∃ st', addNoteToClause st id cs (some raw) caller now
          = (.noteAdded { text := jsTrim raw, createdAt := now }, st'))) ∧
    (∀ st id cs ns raw caller now ana, analysisFindOne st id = some ana →
      (jsTrim raw).length ≠ 0 → parseIntJS cs = none →
      updateNoteInClause st id cs ns (some raw) caller now
        = (.serverError, st)) ∧
    (∀ st id cs ns caller ana i, analysisFindOne st id = some ana →
      parseIntJS cs = some i → 0 ≤ i → i < (ana.clauses.length : Int) →
      parseIntJS ns = none →
      ∃ st', deleteNoteFromClause st id cs ns caller = (.noteDeleted, st') ∧
        ∃ a, analysisFindOne st' id = some a ∧
          (a.clauses.get? i.toNat).map (fun c => c.notes)
            = (ana.clauses.get? i.toNat).map
                (fun c => c.notes.eraseIdx 0)) := by
  refine ⟨?_, ?_, ?_⟩
  · intro st id cs raw caller now ana hana htrim
    have htrim2 : ((jsTrim raw).length == 0) = false := by
      simpa using htrim
    refine ⟨?_, ?_, ?_⟩
    · intro hidx
      simp [addNoteToClause, htrim2, hana, hidx, jsLt, jsGe]
    · intro i hidx hout
      have hcond : (jsLt (parseIntJS cs) 0
          || jsGe (parseIntJS cs) (ana.clauses.length : Int)) = true := by
        rcases hout with hlt | hge
        · simp [hidx, jsLt, hlt]
        · simp [hidx, jsGe, hge]
      simp [addNoteToClause, htrim2, hana, hcond]
    · intro i hidx h0 hlt
      have hcond : (jsLt (parseIntJS cs) 0
          || jsGe (parseIntJS cs) (ana.clauses.length : Int)) = false := by
        simp only [hidx, jsLt, jsGe, Bool.or_eq_false_iff,
          decide_eq_false_iff_not]
        omega
      refine ⟨cacheDel (saveAnalysis st
        { ana with
          clauses := modifyAt ana.clauses i.toNat (fun c =>
            { c with
              notes := c.notes
                ++ [{ text := jsTrim raw, createdAt := now }] }) }) id, ?_⟩
      have hguard2 : (jsLt (some i) 0
          || jsGe (some i) (ana.clauses.length : Int)) = false := by
        rw [← hidx]
        exact hcond
      simp only [addNoteToClause, htrim2, hana, hidx]
      simp [hguard2]
  · intro st id cs ns raw caller now ana hana htrim hci
    have htrim2 : ((jsTrim raw).length == 0) = false := by
      simpa using htrim
    simp [updateNoteInClause, htrim2, hana, hci, jsLt, jsGe]
  · intro st id cs ns caller ana i hana hci h0 hlt hni
    have hcond : (jsLt (parseIntJS cs) 0
        || jsGe (parseIntJS cs) (ana.clauses.length : Int)) = false := by
      simp only [hci, jsLt, jsGe, Bool.or_eq_false_iff,
        decide_eq_false_iff_not]
      omega
    have hk : i.toNat < ana.clauses.length := by omega
    have hget : ana.clauses.get? i.toNat
        = some (ana.clauses.get ⟨i.toNat, hk⟩) := List.get?_eq_get hk
    refine ⟨cacheDel (saveAnalysis st
      { ana with
        clauses := modifyAt ana.clauses i.toNat (fun c =>
          { c with notes := c.notes.eraseIdx 0 }) }) id, ?_, ?_⟩
    · have hguard2 : (jsLt (some i) 0
          || jsGe (some i) (ana.clauses.length : Int)) = false := by
        rw [← hci]
        exact hcond
      simp only [deleteNoteFromClause, hana, hci, hni, hguard2,
        Bool.false_eq_true, if_false, hget, Option.map_some']
      rfl
    · refine ⟨_, (noteMutation_post st id caller ana _ hana).2.1, ?_⟩
      show ((modifyAt ana.clauses i.toNat _).get? i.toNat).map _ = _
      rw [modifyAt_get?, hget]
      rfl

/-- Claim C9 witness: the add-note trichotomy at concrete inputs — a
non-numeric clause index yields the generic server error with the state
unchanged, and an out-of-range numeric index yields the
invalid-clause-index rejection with the state unchanged. -/
theorem C9_note_index_handling_witness :
    addNoteToClause demoState 1 "abc" (some "hi") 9 5
      = (NoteResult.serverError, demoState) ∧
    addNoteToClause demoState 1 "7" (some "hi") 9 5
      = (NoteResult.invalidClauseIndex, demoState) :=
  ⟨(C9_note_index_handling.1 demoState 1 "abc" "hi" 9 5 demoAnalysis rfl
      (by decide)).1 rfl,
   (C9_note_index_handling.1 demoState 1 "7" "hi" 9 5 demoAnalysis rfl
      (by decide)).2.1 7 rfl (Or.inr (by decide))⟩

/-- Claim C10.  A missing, empty or whitespace-only note text is rejected
with the validation error before any lookup or write — the state (Analysis
collection and cache alike) is returned untouched; and every note text
that a successful add or update stores is the trimmed form of the
submitted text. -/
theorem C10_note_text_validation :
    (∀ st id cs caller now,
      addNoteToClause st id cs none caller now = (.textRequired, st)) ∧
    (∀ st id cs raw caller now, (jsTrim raw).length = 0 →
      addNoteToClause st id cs (some raw) caller now = (.textRequired, st)) ∧
    (∀ st id cs ns caller now,
      updateNoteInClause st id cs ns none caller now
        = (.textRequired, st)) ∧
    (∀ st id cs ns raw caller now, (jsTrim raw).length = 0 →
      updateNoteInClause st id cs ns (some raw) caller now
        = (.textRequired, st)) ∧
    (∀ st id cs raw caller now n st',
      addNoteToClause st id cs (some raw) caller now = (.noteAdded n, st') →
      n.text = jsTrim raw) ∧
    (∀ st id cs ns raw caller now n st',
      updateNoteInClause st id cs ns (some raw) caller now
        = (.noteUpdated n, st') →
      n.text = jsTrim raw) := by
  refine ⟨fun _ _ _ _ _ => rfl, ?_, fun _ _ _ _ _ _ => rfl, ?_, ?_, ?_⟩
  · intro st id cs raw caller now h
    simp [addNoteToClause, h]
  · intro st id cs ns raw caller now h
    simp [updateNoteInClause, h]
  · intro st id cs raw caller now n st' h
    unfold addNoteToClause at h
    split at h
    · simp at h
    · rename_i raw2 hraw2
      injection hraw2 with he
      subst he
      split at h
      · simp at h
      · split at h
        · simp at h
        · dsimp only at h
          split at h
          · simp at h
          · split at h
            · simp at h
            · simp only [Prod.mk.injEq, NoteResult.noteAdded.injEq] at h
              rw [← h.1]
  · intro st id cs ns raw caller now n st' h
    unfold updateNoteInClause at h
    split at h
    · simp at h
    · rename_i raw2 hraw2
      injection hraw2 with he
      subst he
      split at h
      · simp at h
      · split at h
        · simp at h
        · dsimp only at h
          split at h
          · simp at h
          · split at h
            · simp at h
            · split at h
              · simp at h
              · split at h
                · simp at h
                · split at h
                  · simp at h
                  · split at h
                    · simp at h
                    · simp only [Prod.mk.injEq,
                        NoteResult.noteUpdated.injEq] at h
                      rw [← h.1]

/-- Claim C10 witness: the validation and trimming behaviour at concrete
inputs — missing text and whitespace-only text are rejected leaving the
state untouched, and a padded text is stored trimmed. -/
theorem C10_note_text_validation_witness :
    addNoteToClause demoState 1 "0" none 1 5
      = (NoteResult.textRequired, demoState) ∧
    addNoteToClause demoState 1 "0" (some "   ") 1 5
      = (NoteResult.textRequired, demoState) ∧
    ({ text := "padded", createdAt := 5 } : Note).text
      = jsTrim "  padded  " :=
  ⟨C10_note_text_validation.1 demoState 1 "0" 1 5,
   C10_note_text_validation.2.1 demoState 1 "0" "   " 1 5 (by decide),
   C10_note_text_validation.2.2.2.2.1 demoState 1 "0" "  padded  " 1 5
     { text := "padded", createdAt := 5 }
     (addNoteToClause demoState 1 "0" (some "  padded  ") 1 5).2 rfl⟩

end LDA
